import Mathlib

/-!
Shallow embedding of the contract-calculator core of `crypto_futures_calc`
(`src/client/src/lib/encryption.ts`, lines 153–332), together with theorems
settling the spec claims about it.

Modelling choices:
* JavaScript numbers are modelled as exact rationals (`ℚ`): the spec's claims
  are about the formulas "in real arithmetic", and every operation the core
  performs is a field operation.
* The two inverse solvers (`calculateLeverageFromLiquidationPrice`,
  `calculateLeverageFromRiskPercentage`) divide by a denominator that the
  claims explicitly probe at zero.  In JavaScript `1/0` is `Infinity`, not a
  junk value, so these two functions are embedded over `JSNum`, a type of
  rationals extended with the IEEE-754 special values `+∞`, `-∞` and `NaN`
  (arithmetic exact, no rounding).  `calculateContract` never divides by zero
  under the hypotheses of any claim, so it is embedded directly over `ℚ`.
-/

/-- The IEEE-754 special values over an exact rational core: a JavaScript
number is either a finite (here: exact) number, `+Infinity`, `-Infinity`
or `NaN`.  Negative zero is identified with zero; none of the embedded
expressions can produce a negative-zero denominator. -/
inductive JSNum where
  | num : ℚ → JSNum
  | posInf : JSNum
  | negInf : JSNum
  | nan : JSNum
deriving DecidableEq, Repr

namespace JSNum

/-- JavaScript subtraction `x - y` on extended numbers. -/
def sub : JSNum → JSNum → JSNum
  | num a, num b => num (a - b)
  | num _, posInf => negInf
  | num _, negInf => posInf
  | posInf, num _ => posInf
  | posInf, posInf => nan
  | posInf, negInf => posInf
  | negInf, num _ => negInf
  | negInf, posInf => negInf
  | negInf, negInf => nan
  | nan, _ => nan
  | _, nan => nan

/-- JavaScript addition `x + y` on extended numbers. -/
def add : JSNum → JSNum → JSNum
  | num a, num b => num (a + b)
  | num _, posInf => posInf
  | num _, negInf => negInf
  | posInf, num _ => posInf
  | posInf, posInf => posInf
  | posInf, negInf => nan
  | negInf, num _ => negInf
  | negInf, posInf => nan
  | negInf, negInf => negInf
  | nan, _ => nan
  | _, nan => nan

/-- JavaScript division `x / y` on extended numbers: division of a nonzero
finite number by zero yields a signed infinity, `0/0` yields `NaN`, and a
finite number divided by an infinity yields zero. -/
def div : JSNum → JSNum → JSNum
  | num a, num b =>
      if b = 0 then (if a = 0 then nan else if 0 < a then posInf else negInf)
      else num (a / b)
  | num _, posInf => num 0
  | num _, negInf => num 0
  | posInf, num b => if 0 ≤ b then posInf else negInf
  | negInf, num b => if 0 ≤ b then negInf else posInf
  | posInf, posInf => nan
  | posInf, negInf => nan
  | negInf, posInf => nan
  | negInf, negInf => nan
  | nan, _ => nan
  | _, nan => nan

/-- JavaScript `Math.max`: `NaN` if any argument is `NaN`, otherwise the
larger value with `+Infinity` absorbing and `-Infinity` neutral. -/
def jmax : JSNum → JSNum → JSNum
  | num a, num b => num (max a b)
  | num _, posInf => posInf
  | num a, negInf => num a
  | posInf, num _ => posInf
  | posInf, posInf => posInf
  | posInf, negInf => posInf
  | negInf, num b => num b
  | negInf, posInf => posInf
  | negInf, negInf => negInf
  | nan, _ => nan
  | _, nan => nan

end JSNum

/-- The positionType field of `ContractParams`: `"long" | "short"`. -/
inductive PositionType where
  | long : PositionType
  | short : PositionType
deriving DecidableEq, Repr

/-- The marginMode field of `ContractParams`: `"isolated" | "cross"`. -/
inductive MarginMode where
  | isolated : MarginMode
  | cross : MarginMode
deriving DecidableEq, Repr

/-- Interface `ContractParams` (`encryption.ts` lines 158–172); the
optional fields are `Option ℚ`, resolved against their documented defaults
by `calculateContract` exactly as the `??` coalescing in the source does. -/
structure ContractParams where
  openPrice : ℚ
  margin : ℚ
  leverage : ℚ
  marginMode : MarginMode
  positionType : PositionType
  maintainanceRate : Option ℚ := none
  openFee : Option ℚ := none
  closeFee : Option ℚ := none
  fundingRate : Option ℚ := none
  fundingPeriodHours : Option ℚ := none

/-- Interface `CalculationResult` (`encryption.ts` lines 174–200);
`profitAtPrice` and `profitPercentAtPrice` are the two closures. -/
structure CalculationResult where
  positionSize : ℚ
  positionSizeInCoin : ℚ
  liquidationPrice : ℚ
  liquidationPricePercent : ℚ
  riskPercentage : ℚ
  maxLoss : ℚ
  openFeeAmount : ℚ
  closeFeeAmount : ℚ
  totalFeeAmount : ℚ
  fundingFeePerPeriod : ℚ
  fundingFeePerDay : ℚ
  breakEvenPrice : ℚ
  profitAtPrice : ℚ → ℚ
  profitPercentAtPrice : ℚ → ℚ

/-- Function `calculateContract` (`encryption.ts` lines 205–293), translated binding
for binding; decimal literals of the source are written as exact rationals
(`0.005 = 5/1000`, `0.0002 = 2/10000`, `1.1 = 11/10`). -/
def calculateContract (params : ContractParams) : CalculationResult :=
  let maintainanceRate := params.maintainanceRate.getD (5 / 1000)
  let openFeeRate := params.openFee.getD (2 / 10000)
  let closeFeeRate := params.closeFee.getD (2 / 10000)
  let fundingRate := params.fundingRate.getD 0
  let fundingPeriodHours := params.fundingPeriodHours.getD 8
  let positionSize := params.margin * params.leverage
  let positionSizeInCoin := positionSize / params.openPrice
  let openFeeAmount := positionSize * openFeeRate
  let closeFeeAmount := positionSize * closeFeeRate
  let totalFeeAmount := openFeeAmount + closeFeeAmount
  let liquidationPrice :=
    match params.positionType with
    | .long => params.openPrice * (1 - 1 / params.leverage + maintainanceRate)
    | .short => params.openPrice * (1 + 1 / params.leverage - maintainanceRate)
  let priceChange := |liquidationPrice - params.openPrice|
  let riskPercentage := priceChange / params.openPrice * 100
  let maxLoss := params.margin
  let fundingFeePerPeriod := positionSize * fundingRate
  let fundingFeePerDay := fundingFeePerPeriod / fundingPeriodHours * 24
  let breakEvenPrice :=
    match params.positionType with
    | .long => params.openPrice * (1 + totalFeeAmount / positionSize * (11 / 10))
    | .short => params.openPrice * (1 - totalFeeAmount / positionSize * (11 / 10))
  let profitAtPrice := fun price =>
    match params.positionType with
    | .long => (price - params.openPrice) * positionSizeInCoin - totalFeeAmount
    | .short => (params.openPrice - price) * positionSizeInCoin - totalFeeAmount
  let profitPercentAtPrice := fun price => profitAtPrice price / params.margin * 100
  let liquidationPricePercent :=
    (liquidationPrice - params.openPrice) / params.openPrice * 100
  { positionSize := positionSize
    positionSizeInCoin := positionSizeInCoin
    liquidationPrice := liquidationPrice
    liquidationPricePercent := liquidationPricePercent
    riskPercentage := riskPercentage
    maxLoss := maxLoss
    openFeeAmount := openFeeAmount
    closeFeeAmount := closeFeeAmount
    totalFeeAmount := totalFeeAmount
    fundingFeePerPeriod := fundingFeePerPeriod
    fundingFeePerDay := fundingFeePerDay
    breakEvenPrice := breakEvenPrice
    profitAtPrice := profitAtPrice
    profitPercentAtPrice := profitPercentAtPrice }

/-- Function `calculateLeverageFromLiquidationPrice` (`encryption.ts` lines 298–317)
over `JSNum`, so that the JavaScript behaviour of `1 / 0 = Infinity` and of
`Math.max` on non-finite values is preserved.  The caller-supplied arguments
are finite numbers. -/
def calculateLeverageFromLiquidationPrice (openPrice targetLiquidationPrice : ℚ)
    (positionType : PositionType) (maintainanceRate : ℚ) : JSNum :=
  match positionType with
  | .long =>
      let ratio := JSNum.div (.num targetLiquidationPrice) (.num openPrice)
      let leverage :=
        JSNum.div (.num 1) (JSNum.add (JSNum.sub (.num 1) ratio) (.num maintainanceRate))
      JSNum.jmax (.num 1) leverage
  | .short =>
      let ratio := JSNum.div (.num targetLiquidationPrice) (.num openPrice)
      let leverage :=
        JSNum.div (.num 1) (JSNum.sub (JSNum.sub ratio (.num 1)) (.num maintainanceRate))
      JSNum.jmax (.num 1) leverage

/-- Function `calculateLeverageFromRiskPercentage` (`encryption.ts` lines 322–332)
over `JSNum`.  The `positionType` parameter is accepted but, exactly as in
the source, never read. -/
def calculateLeverageFromRiskPercentage (riskPercentage : ℚ)
    (positionType : PositionType) (maintainanceRate : ℚ) : JSNum :=
  let leverage := JSNum.div (.num 1) (.num (riskPercentage / 100 + maintainanceRate))
  JSNum.jmax (.num 1) leverage

/-! ## Helper lemmas about the shared clamp pattern of the inverse solvers -/

/-- The clamp `Math.max(1, 1/d)` at a nonzero finite denominator is the
finite number `max 1 (1/d)`. -/
lemma jmax_one_div_num (d : ℚ) (hd : d ≠ 0) :
    JSNum.jmax (.num 1) (JSNum.div (.num 1) (.num d)) = .num (max 1 (1 / d)) := by
  simp [JSNum.div, JSNum.jmax, hd]

/-- The clamp `Math.max(1, 1/d)` at a zero denominator is `+Infinity`
(JavaScript `1/0 = Infinity`, and `Math.max(1, Infinity) = Infinity`). -/
lemma jmax_one_div_zero :
    JSNum.jmax (.num 1) (JSNum.div (.num 1) (.num 0)) = .posInf := by
  simp [JSNum.div, JSNum.jmax]

/-- At a negative denominator, `1/d` is negative and the clamp returns 1. -/
lemma jmax_one_div_neg (d : ℚ) (hd : d < 0) :
    JSNum.jmax (.num 1) (JSNum.div (.num 1) (.num d)) = .num 1 := by
  rw [jmax_one_div_num d hd.ne]
  have h1 : 1 / d ≤ 1 := le_trans (one_div_neg.mpr hd).le zero_le_one
  rw [max_eq_left h1]

/-- Unfolding of the long branch of the liquidation-price inverse solver at a
nonzero open price: the clamp applied to the denominator `1 - ratio + m`. -/
lemma calculateLeverageFromLiquidationPrice_long_eq (op t m : ℚ) (hop : op ≠ 0) :
    calculateLeverageFromLiquidationPrice op t .long m =
      JSNum.jmax (.num 1) (JSNum.div (.num 1) (.num (1 - t / op + m))) := by
  simp [calculateLeverageFromLiquidationPrice, JSNum.div, JSNum.sub, JSNum.add, hop]

/-- Unfolding of the short branch of the liquidation-price inverse solver at a
nonzero open price: the clamp applied to the denominator `ratio - 1 - m`. -/
lemma calculateLeverageFromLiquidationPrice_short_eq (op t m : ℚ) (hop : op ≠ 0) :
    calculateLeverageFromLiquidationPrice op t .short m =
      JSNum.jmax (.num 1) (JSNum.div (.num 1) (.num (t / op - 1 - m))) := by
  simp [calculateLeverageFromLiquidationPrice, JSNum.div, JSNum.sub, JSNum.add, hop]

/-- Unfolding of the risk-percentage inverse solver: the clamp applied to the
denominator `riskPercentage/100 + m`; the positionType argument is unread. -/
lemma calculateLeverageFromRiskPercentage_eq (r m : ℚ) (pt : PositionType) :
    calculateLeverageFromRiskPercentage r pt m =
      JSNum.jmax (.num 1) (JSNum.div (.num 1) (.num (r / 100 + m))) := rfl

/-! ## Claim theorems -/

/-- Concrete parameter set used to exhibit the short round-trip failure:
openPrice = 100, leverage = 5, short position, maintainanceRate = 0.005. -/
def shortRoundtripParams : ContractParams :=
  { openPrice := 100, margin := 1, leverage := 5, marginMode := .isolated,
    positionType := .short, maintainanceRate := some (5 / 1000) }

/-- Claim C1 (code-bug evidence).  The round-trip through the short branch
fails: with openPrice = 100, leverage = 5, maintainanceRate = 0.005 and
positionType short, `calculateContract` puts the liquidation price at 119.5,
the short inverse denominator `ratio - 1 - m = 0.19` is positive, yet
`calculateLeverageFromLiquidationPrice` returns `100/19 ≈ 5.263`, not the
original leverage 5.  (The short branch subtracts the maintenance rate where
inverting the forward formula of the code's own comment requires adding it;
the long branch round-trips exactly.) -/
theorem leverageFromLiquidationPrice_short_roundtrip_fails :
    (calculateContract shortRoundtripParams).liquidationPrice = 239 / 2 ∧
    (0 : ℚ) < (239 / 2) / 100 - 1 - 5 / 1000 ∧
    calculateLeverageFromLiquidationPrice 100 (239 / 2) .short (5 / 1000) =
      .num (100 / 19) ∧
    (100 : ℚ) / 19 ≠ 5 := by
  refine ⟨?_, by norm_num, ?_, by norm_num⟩
  · norm_num [calculateContract, shortRoundtripParams]
  · norm_num [calculateLeverageFromLiquidationPrice, JSNum.div, JSNum.sub,
      JSNum.add, JSNum.jmax]

/-- Claim C2, counterexample.  At openPrice = 1, target = 1.005,
maintainanceRate = 0.005 the long inverse denominator `1 - ratio + m` is
exactly zero, and the solver returns `+Infinity` (JavaScript
`Math.max(1, 1/0)`), not the clamped value 1 that the claim asserts for a
zero denominator. -/
theorem leverageFromLiquidationPrice_zero_denominator_not_one :
    (1 - (201 / 200 : ℚ) / 1 + 5 / 1000 = 0) ∧
    calculateLeverageFromLiquidationPrice 1 (201 / 200) .long (5 / 1000) =
      .posInf ∧
    JSNum.posInf ≠ JSNum.num 1 := by
  refine ⟨by norm_num, ?_, by simp⟩
  norm_num [calculateLeverageFromLiquidationPrice, JSNum.div, JSNum.sub,
    JSNum.add, JSNum.jmax]

/-- Claim C2, amended.  For every finite input (with a nonzero open price for
the liquidation solver, so that the ratio is finite), each inverse solver
returns exactly 1 when its denominator is negative, `+Infinity` (not 1) when
the denominator is zero, and the finite value `max 1 (1/denominator) ≥ 1`
when the denominator is positive — so the floor-at-1 clamp holds for every
finite result, but the zero-denominator case yields Infinity rather than 1. -/
theorem inverse_solvers_floor_at_one (op t m r : ℚ) (pt : PositionType)
    (hop : op ≠ 0) :
    (1 - t / op + m < 0 →
      calculateLeverageFromLiquidationPrice op t .long m = .num 1) ∧
    (1 - t / op + m = 0 →
      calculateLeverageFromLiquidationPrice op t .long m = .posInf) ∧
    (0 < 1 - t / op + m →
      calculateLeverageFromLiquidationPrice op t .long m =
        .num (max 1 (1 / (1 - t / op + m))) ∧
      (1 : ℚ) ≤ max 1 (1 / (1 - t / op + m))) ∧
    (t / op - 1 - m < 0 →
      calculateLeverageFromLiquidationPrice op t .short m = .num 1) ∧
    (t / op - 1 - m = 0 →
      calculateLeverageFromLiquidationPrice op t .short m = .posInf) ∧
    (0 < t / op - 1 - m →
      calculateLeverageFromLiquidationPrice op t .short m =
        .num (max 1 (1 / (t / op - 1 - m))) ∧
      (1 : ℚ) ≤ max 1 (1 / (t / op - 1 - m))) ∧
    (r / 100 + m < 0 →
      calculateLeverageFromRiskPercentage r pt m = .num 1) ∧
    (r / 100 + m = 0 →
      calculateLeverageFromRiskPercentage r pt m = .posInf) ∧
    (0 < r / 100 + m →
      calculateLeverageFromRiskPercentage r pt m =
        .num (max 1 (1 / (r / 100 + m))) ∧
      (1 : ℚ) ≤ max 1 (1 / (r / 100 + m))) := by
  rw [calculateLeverageFromLiquidationPrice_long_eq op t m hop] at *
  refine ⟨fun h => jmax_one_div_neg _ h, fun h => ?_,
    fun h => ⟨jmax_one_div_num _ h.ne', le_max_left _ _⟩,
    ?_, ?_, ?_, ?_, ?_, ?_⟩
  · rw [h]; exact jmax_one_div_zero
  · rw [calculateLeverageFromLiquidationPrice_short_eq op t m hop]
    exact fun h => jmax_one_div_neg _ h
  · rw [calculateLeverageFromLiquidationPrice_short_eq op t m hop]
    intro h; rw [h]; exact jmax_one_div_zero
  · rw [calculateLeverageFromLiquidationPrice_short_eq op t m hop]
    exact fun h => ⟨jmax_one_div_num _ h.ne', le_max_left _ _⟩
  · rw [calculateLeverageFromRiskPercentage_eq r m pt]
    exact fun h => jmax_one_div_neg _ h
  · rw [calculateLeverageFromRiskPercentage_eq r m pt]
    intro h; rw [h]; exact jmax_one_div_zero
  · rw [calculateLeverageFromRiskPercentage_eq r m pt]
    exact fun h => ⟨jmax_one_div_num _ h.ne', le_max_left _ _⟩

/-- Witness for the amended C2 theorem, at openPrice = 100, target = 200,
maintainanceRate = 0: the long denominator is −1 < 0 and the solver returns
exactly 1. -/
theorem inverse_solvers_floor_at_one_witness :
    calculateLeverageFromLiquidationPrice 100 200 .long 0 = .num 1 :=
  (inverse_solvers_floor_at_one 100 200 0 0 .long (by norm_num)).1 (by norm_num)

/-- Default example parameters of the surrounding application: openPrice =
60000, margin = 20, leverage = 5, long, isolated, maintainanceRate = 0.005,
fee rates 0.0002, fundingRate = 0. -/
def defaultScenarioParams : ContractParams :=
  { openPrice := 60000, margin := 20, leverage := 5, marginMode := .isolated,
    positionType := .long, maintainanceRate := some (5 / 1000),
    openFee := some (2 / 10000), closeFee := some (2 / 10000),
    fundingRate := some 0 }

/-- Claim C3.  The concrete default scenario: positionSize = 100,
positionSizeInCoin = 1/600 (≈ 0.0016667 to within 1e-7), liquidationPrice =
48300, riskPercentage = 19.5 exactly, maxLoss = 20, openFeeAmount =
closeFeeAmount = 0.02, totalFeeAmount = 0.04. -/
theorem calculateContract_default_scenario :
    (calculateContract defaultScenarioParams).positionSize = 100 ∧
    (calculateContract defaultScenarioParams).positionSizeInCoin = 1 / 600 ∧
    |(calculateContract defaultScenarioParams).positionSizeInCoin -
      16667 / 10000000| < 1 / 10000000 ∧
    (calculateContract defaultScenarioParams).liquidationPrice = 48300 ∧
    (calculateContract defaultScenarioParams).riskPercentage = 39 / 2 ∧
    (calculateContract defaultScenarioParams).maxLoss = 20 ∧
    (calculateContract defaultScenarioParams).openFeeAmount = 1 / 50 ∧
    (calculateContract defaultScenarioParams).closeFeeAmount = 1 / 50 ∧
    (calculateContract defaultScenarioParams).totalFeeAmount = 1 / 25 := by
  refine ⟨?_, ?_, ?_, ?_, ?_, ?_, ?_, ?_, ?_⟩ <;>
    norm_num [calculateContract, defaultScenarioParams] <;>
    rw [abs_of_pos] <;> norm_num

/-- Claim C4.  The marginMode field does not interfere with the computation:
replacing it (isolated vs cross) leaves the entire calculation result equal,
field by field and with pointwise-equal profit closures; and maxLoss is the
margin for both margin modes. -/
theorem calculateContract_marginMode_noninterference
    (p : ContractParams) (mm : MarginMode) :
    calculateContract { p with marginMode := mm } = calculateContract p ∧
    (∀ price, (calculateContract { p with marginMode := mm }).profitAtPrice price =
      (calculateContract p).profitAtPrice price) ∧
    (∀ price,
      (calculateContract { p with marginMode := mm }).profitPercentAtPrice price =
      (calculateContract p).profitPercentAtPrice price) ∧
    (calculateContract { p with marginMode := mm }).maxLoss = p.margin ∧
    (calculateContract p).maxLoss = p.margin :=
  ⟨rfl, fun _ => rfl, fun _ => rfl, rfl, rfl⟩

/-- Claim C5.  The risk-percentage inverse solver equals its stated formula
`max 1 (1 / (riskPercentage/100 + maintenanceRate))` whenever that formula's
denominator is nonzero, and it is direction-independent: the long and short
results coincide on the same numeric inputs (the positionType argument is
never read). -/
theorem leverageFromRiskPercentage_formula (r m : ℚ) (pt : PositionType)
    (h : r / 100 + m ≠ 0) :
    calculateLeverageFromRiskPercentage r pt m =
      .num (max 1 (1 / (r / 100 + m))) ∧
    calculateLeverageFromRiskPercentage r .long m =
      calculateLeverageFromRiskPercentage r .short m :=
  ⟨by rw [calculateLeverageFromRiskPercentage_eq r m pt, jmax_one_div_num _ h], rfl⟩

/-- Witness for C5 at riskPercentage = 19.5, maintainanceRate = 0.005: the
denominator is 0.2 and the solver returns max 1 5 = 5. -/
theorem leverageFromRiskPercentage_formula_witness :
    calculateLeverageFromRiskPercentage (39 / 2) .long (5 / 1000) =
      .num (max 1 (1 / ((39 / 2) / 100 + 5 / 1000))) ∧
    calculateLeverageFromRiskPercentage (39 / 2) .long (5 / 1000) =
      calculateLeverageFromRiskPercentage (39 / 2) .short (5 / 1000) :=
  leverageFromRiskPercentage_formula (39 / 2) (5 / 1000) .long (by norm_num)

/-- Claim C6.  Closing immediately at the open price loses exactly the
round-trip fee: the profitAtPrice closure evaluated at the open price is the
negation of totalFeeAmount, for long and short positions alike. -/
theorem profitAtPrice_at_openPrice (p : ContractParams) (h : 0 < p.openPrice) :
    (calculateContract p).profitAtPrice p.openPrice =
      -(calculateContract p).totalFeeAmount := by
  rcases p with ⟨op, mg, lev, mm, pt, mr, ofr, cfr, fr, fp⟩
  cases pt <;> simp only [calculateContract] <;> ring

/-- Witness for C6 at the default scenario parameters. -/
theorem profitAtPrice_at_openPrice_witness :
    (calculateContract defaultScenarioParams).profitAtPrice
        defaultScenarioParams.openPrice =
      -(calculateContract defaultScenarioParams).totalFeeAmount :=
  profitAtPrice_at_openPrice defaultScenarioParams (by norm_num [defaultScenarioParams])

/-- Claim C7.  Long/short antisymmetry of the signed liquidation-price
offset: on the same numeric inputs, the long liquidationPricePercent is the
negation of the short one. -/
theorem liquidationPricePercent_long_short_antisym (p : ContractParams)
    (h : 0 < p.openPrice) :
    (calculateContract { p with positionType := .long }).liquidationPricePercent =
      -(calculateContract { p with positionType := .short }).liquidationPricePercent := by
  rcases p with ⟨op, mg, lev, mm, pt, mr, ofr, cfr, fr, fp⟩
  have hop : op ≠ 0 := ne_of_gt h
  simp only [calculateContract]
  field_simp
  ring

/-- Witness for C7 at the default scenario parameters. -/
theorem liquidationPricePercent_long_short_antisym_witness :
    (calculateContract
        { defaultScenarioParams with positionType := .long }).liquidationPricePercent =
      -(calculateContract
        { defaultScenarioParams with positionType := .short }).liquidationPricePercent :=
  liquidationPricePercent_long_short_antisym defaultScenarioParams
    (by norm_num [defaultScenarioParams])

/-- Claim C8.  The risk percentage is non-negative for every parameter set
with a positive open price, both directions, any leverage and maintenance
rate: it is an absolute price distance divided by the (positive) open price. -/
theorem riskPercentage_nonneg (p : ContractParams) (h : 0 < p.openPrice) :
    0 ≤ (calculateContract p).riskPercentage := by
  rcases p with ⟨op, mg, lev, mm, pt, mr, ofr, cfr, fr, fp⟩
  simp only [calculateContract]
  exact mul_nonneg (div_nonneg (abs_nonneg _) h.le) (by norm_num)

/-- Witness for C8 at the default scenario parameters. -/
theorem riskPercentage_nonneg_witness :
    0 ≤ (calculateContract defaultScenarioParams).riskPercentage :=
  riskPercentage_nonneg defaultScenarioParams (by norm_num [defaultScenarioParams])

/-- Claim C9.  The reported break-even price overshoots true break-even by
exactly one tenth of the fees: evaluating the profit closure at
breakEvenPrice yields `0.1 × totalFeeAmount` (the 1.1 pad factor), for both
directions, whenever the open price is positive and the notional
`margin × leverage` is nonzero. -/
theorem profitAtPrice_breakEvenPrice (p : ContractParams)
    (hop : 0 < p.openPrice) (hS : p.margin * p.leverage ≠ 0) :
    (calculateContract p).profitAtPrice ((calculateContract p).breakEvenPrice) =
      1 / 10 * (calculateContract p).totalFeeAmount := by
  rcases p with ⟨op, mg, lev, mm, pt, mr, ofr, cfr, fr, fp⟩
  have hop' : op ≠ 0 := ne_of_gt hop
  have hmg : mg ≠ 0 := fun hc => hS (by rw [hc, zero_mul])
  have hlev : lev ≠ 0 := fun hc => hS (by rw [hc, mul_zero])
  cases pt <;> simp only [calculateContract] <;> field_simp <;> ring

/-- Witness for C9 at the default scenario parameters. -/
theorem profitAtPrice_breakEvenPrice_witness :
    (calculateContract defaultScenarioParams).profitAtPrice
        ((calculateContract defaultScenarioParams).breakEvenPrice) =
      1 / 10 * (calculateContract defaultScenarioParams).totalFeeAmount :=
  profitAtPrice_breakEvenPrice defaultScenarioParams
    (by norm_num [defaultScenarioParams]) (by norm_num [defaultScenarioParams])

/-- Concrete parameter set with leverage 500 and the default maintenance
rate, used to witness the high-leverage long behaviour. -/
def highLeverageParams : ContractParams :=
  { openPrice := 100, margin := 1, leverage := 500, marginMode := .isolated,
    positionType := .long }

/-- Claim C10.  For a long position with positive open price and leverage,
the liquidation price sits strictly below the open price exactly when
`1/leverage` exceeds the (defaulted) maintenance rate; and with the default
maintenance rate 0.005, any leverage above 200 puts the long liquidation
price strictly above the open price, with a positive
liquidationPricePercent. -/
theorem liquidationPrice_long_below_open_iff (p : ContractParams)
    (hpt : p.positionType = .long) (hop : 0 < p.openPrice)
    (hlev : 0 < p.leverage) :
    ((calculateContract p).liquidationPrice < p.openPrice ↔
      p.maintainanceRate.getD (5 / 1000) < 1 / p.leverage) ∧
    (p.maintainanceRate.getD (5 / 1000) = 5 / 1000 → 200 < p.leverage →
      p.openPrice < (calculateContract p).liquidationPrice ∧
      0 < (calculateContract p).liquidationPricePercent) := by
  rcases p with ⟨op, mg, lev, mm, pt, mr, ofr, cfr, fr, fp⟩
  cases hpt
  simp only [calculateContract]
  constructor
  · constructor
    · intro hlt
      have h1 : op * (1 - 1 / lev + mr.getD (5 / 1000)) < op * 1 := by
        rwa [mul_one]
      have h2 := (mul_lt_mul_left hop).mp h1
      linarith
    · intro hlt
      have h1 : op * (1 - 1 / lev + mr.getD (5 / 1000)) < op * 1 :=
        (mul_lt_mul_left hop).mpr (by linarith)
      rwa [mul_one] at h1
  · intro hm h200
    have hinv : 1 / lev < 1 / 200 :=
      one_div_lt_one_div_of_lt (by norm_num) h200
    have h1 : op * 1 < op * (1 - 1 / lev + mr.getD (5 / 1000)) :=
      (mul_lt_mul_left hop).mpr (by rw [hm]; norm_num at hinv ⊢; linarith)
    rw [mul_one] at h1
    refine ⟨h1, ?_⟩
    have hnum : 0 < op * (1 - 1 / lev + mr.getD (5 / 1000)) - op := by linarith
    exact mul_pos (div_pos hnum hop) (by norm_num)

/-- Witness for C10 at leverage 500 with the default maintenance rate: the
long liquidation price exceeds the open price and the signed offset is
positive. -/
theorem liquidationPrice_long_below_open_iff_witness :
    highLeverageParams.openPrice <
      (calculateContract highLeverageParams).liquidationPrice ∧
    0 < (calculateContract highLeverageParams).liquidationPricePercent :=
  (liquidationPrice_long_below_open_iff highLeverageParams rfl
    (by norm_num [highLeverageParams]) (by norm_num [highLeverageParams])).2
    rfl (by norm_num [highLeverageParams])
